import Mathlib

/-!
Shallow embedding of the reactive coordination core of
`src/packages/react/src/prefabs/VideoConference.tsx`: the auto-focus
controller effect, the layout branch with its carousel filter, the pin
action channel, and the waiting-toast timer effect, together with proofs
about their behaviour.
-/

/-- Source of a track publication, mirroring `Track.Source` as used in the
component (only the two sources the component requests). -/
inductive TrackSource where
  | Camera
  | ScreenShare
deriving DecidableEq, Repr

/-- A `TrackReferenceOrPlaceholder` value: a placeholder stands for a
participant slot with no live publication and carries no screen-share
publication; a real reference carries its publication sid. -/
structure TrackRef where
  source : TrackSource
  trackSid : String
  isPlaceholder : Bool
deriving DecidableEq, Repr

/-- `isTrackReference`: the value is a real publication, not a placeholder. -/
def isTrackReference (t : TrackRef) : Bool := !t.isPlaceholder

/-- The `screenShareTracks` derivation of the component:
`tracks.filter(isTrackReference).filter(track => track.publication.source === Track.Source.ScreenShare)`. -/
def screenShareTracks (tracks : List TrackRef) : List TrackRef :=
  (tracks.filter isTrackReference).filter
    (fun track => decide (track.source = TrackSource.ScreenShare))

/-- The only two messages the component dispatches on the pin channel:
`{ msg: 'set_pin', trackReference }` and `{ msg: 'clear_pin' }`. -/
inductive PinAction where
  | set_pin (trackReference : TrackRef)
  | clear_pin
deriving DecidableEq, Repr

/-- The pin state store reacting to one action: `set_pin` replaces the pin,
`clear_pin` empties it. -/
def applyPinAction (pin : Option TrackRef) : PinAction → Option TrackRef
  | PinAction.set_pin t => some t
  | PinAction.clear_pin => none

/-- The pin state store consuming a dispatched action list in order. -/
def applyPinActions (pin : Option TrackRef) (acts : List PinAction) : Option TrackRef :=
  acts.foldl applyPinAction pin

/-- One run of the auto-focus `React.useEffect` body: from the ref
`lastAutoFocusedScreenShareTrack.current` and the track snapshot it returns
the new ref value and the list of pin actions dispatched during the run.
First branch: screen-share tracks exist and the ref is null. Second branch:
the ref is non-null and no screen-share track carries its sid. -/
def autoFocusBranch (ss : List TrackRef) (last : Option TrackRef) :
    Option TrackRef × List PinAction :=
  match ss, last with
  | t :: _, none => (some t, [PinAction.set_pin t])
  | ss, some l =>
      if ss.any (fun track => track.trackSid == l.trackSid) then (some l, [])
      else (none, [PinAction.clear_pin])
  | [], none => (none, [])

/-- The effect body applied to the snapshot: the branches run over the
derived `screenShareTracks` list. -/
def autoFocusEffect (last : Option TrackRef) (tracks : List TrackRef) :
    Option TrackRef × List PinAction :=
  autoFocusBranch (screenShareTracks tracks) last

/-- Layout mode of the render branch on `focusTrack`. -/
inductive LayoutMode where
  | grid
  | focus
deriving DecidableEq, Repr

/-- Modelled from the spec: `isEqualTrackRef` lives in
`@livekit/components-core`, which is not under src/; the spec states the
comparison is equality of the TrackReference value, not just trackId, and a
comparison against an absent side never matches. -/
def isEqualTrackRef : Option TrackRef → Option TrackRef → Bool
  | some a, some b => decide (a = b)
  | _, _ => false

/-- The `carouselTracks` derivation:
`tracks.filter((track) => !isEqualTrackRef(track, focusTrack))`. -/
def carouselTracks (tracks : List TrackRef) (focusTrack : Option TrackRef) :
    List TrackRef :=
  tracks.filter (fun track => !(isEqualTrackRef (some track) focusTrack))

/-- Outcome of the layout branch: the mode, the tracks handed to the grid
(grid mode) or to the carousel strip (focus mode), and the focus track. -/
structure LayoutResult where
  mode : LayoutMode
  tracks : List TrackRef
  focus : Option TrackRef
deriving DecidableEq, Repr

/-- The layout branch of the render: `!focusTrack` gives the grid over the
full snapshot; a focus track gives the focus layout with the carousel strip
and the focused track. -/
def layoutSelect (focusTrack : Option TrackRef) (tracks : List TrackRef) :
    LayoutResult :=
  match focusTrack with
  | none => ⟨LayoutMode.grid, tracks, none⟩
  | some p => ⟨LayoutMode.focus, carouselTracks tracks (some p), some p⟩

/-- Waiting-toast state: the `waiting` React state cell and the expiry times
of the pending `setTimeout` callbacks the timer effect has scheduled. -/
structure WaitState where
  waiting : Option String
  timers : List Nat
deriving DecidableEq, Repr

/-- JavaScript truthiness of the `waiting` value: `null` and the empty
string are falsy, every other string is truthy. -/
def waitingTruthy : Option String → Bool
  | some m => m != ""
  | none => false

/-- `setWaitingMessage` guarded by `showParticipantButton`, combined with the
timer effect on the `waiting` dependency: when the stored value changes to a
truthy one, the effect schedules a `setWaiting(null)` callback at
`now + 3000`; no pending callback is ever cancelled. An unchanged value does
not rerun the effect. -/
def setWaitingMessage (showParticipantButton : Bool) (message : String)
    (now : Nat) (s : WaitState) : WaitState :=
  if showParticipantButton then
    ⟨some message,
      if (some message != s.waiting) && waitingTruthy (some message) then
        s.timers ++ [now + 3000]
      else s.timers⟩
  else s

/-- Advancing the clock to `now`: every due `setTimeout` callback runs
`setWaiting(null)`, and the effect rerun on the now-falsy `waiting` value
schedules nothing. -/
def fireDue (now : Nat) (s : WaitState) : WaitState :=
  if s.timers.any (fun e => decide (e ≤ now)) then
    ⟨none, s.timers.filter (fun e => decide (now < e))⟩
  else s

/-- The toast render guard: the toast is rendered exactly when `waiting` is
truthy. -/
def showsToast (s : WaitState) : Bool := waitingTruthy s.waiting

/-- C1: on a snapshot whose screen-share list is non-empty while the ref
`lastAutoFocusedScreenShareTrack` is empty, the effect dispatches exactly
`set_pin` of the first screen-share track and records that track in the
ref; the dispatched pin replaces whatever pin the store currently holds,
since the branch never reads the current pin. -/
theorem autoFocus_pins_first_screenShare (tracks : List TrackRef)
    (t : TrackRef) (rest : List TrackRef)
    (h : screenShareTracks tracks = t :: rest) :
    autoFocusEffect none tracks = (some t, [PinAction.set_pin t]) ∧
    ∀ pin : Option TrackRef,
      applyPinActions pin (autoFocusEffect none tracks).2 = some t := by
  have heff : autoFocusEffect none tracks = (some t, [PinAction.set_pin t]) := by
    unfold autoFocusEffect
    rw [h]
    rfl
  refine ⟨heff, fun pin => ?_⟩
  rw [heff]
  rfl

/-- Witness for C1 at a concrete snapshot holding one camera track and one
screen-share track. -/
theorem autoFocus_pins_first_screenShare_witness :
    autoFocusEffect none
        [⟨TrackSource.Camera, "c1", false⟩, ⟨TrackSource.ScreenShare, "s1", false⟩]
      = (some ⟨TrackSource.ScreenShare, "s1", false⟩,
         [PinAction.set_pin ⟨TrackSource.ScreenShare, "s1", false⟩]) ∧
    ∀ pin : Option TrackRef,
      applyPinActions pin
          (autoFocusEffect none
            [⟨TrackSource.Camera, "c1", false⟩,
             ⟨TrackSource.ScreenShare, "s1", false⟩]).2
        = some ⟨TrackSource.ScreenShare, "s1", false⟩ :=
  autoFocus_pins_first_screenShare _ _ [] (by decide)

/-- C2: when the ref holds a track whose sid no longer occurs among the
screen-share tracks of the snapshot, the effect dispatches `clear_pin` and
resets the ref to null, whatever other (non-screen-share) tracks remain,
and the pin store ends up empty whatever it held. -/
theorem autoFocus_clears_on_departure (tracks : List TrackRef) (l : TrackRef)
    (h : (screenShareTracks tracks).any
        (fun track => track.trackSid == l.trackSid) = false) :
    autoFocusEffect (some l) tracks = (none, [PinAction.clear_pin]) ∧
    ∀ pin : Option TrackRef,
      applyPinActions pin (autoFocusEffect (some l) tracks).2 = none := by
  have heff : autoFocusEffect (some l) tracks = (none, [PinAction.clear_pin]) := by
    unfold autoFocusEffect
    cases hss : screenShareTracks tracks with
    | nil => rw [hss] at h; simp [autoFocusBranch, h]
    | cons a as => rw [hss] at h; simp [autoFocusBranch, h]
  refine ⟨heff, fun pin => ?_⟩
  rw [heff]
  rfl

/-- Witness for C2 at a snapshot that still holds a camera track but no
screen-share track with the departed sid. -/
theorem autoFocus_clears_on_departure_witness :
    autoFocusEffect (some ⟨TrackSource.ScreenShare, "s1", false⟩)
        [⟨TrackSource.Camera, "c1", false⟩]
      = (none, [PinAction.clear_pin]) ∧
    ∀ pin : Option TrackRef,
      applyPinActions pin
          (autoFocusEffect (some ⟨TrackSource.ScreenShare, "s1", false⟩)
            [⟨TrackSource.Camera, "c1", false⟩]).2
        = none :=
  autoFocus_clears_on_departure _ _ (by decide)

/-- C9: the clear branch never compares the ref with the current pin: with a
departed auto-pinned sid, the dispatched `clear_pin` erases an externally set
pin `x` even though `x` is a different track than the one the controller
auto-pinned. -/
theorem autoFocus_clear_overrides_external_pin (tracks : List TrackRef)
    (l x : TrackRef)
    (hgone : (screenShareTracks tracks).any
        (fun track => track.trackSid == l.trackSid) = false)
    (hne : x.trackSid ≠ l.trackSid) :
    (autoFocusEffect (some l) tracks).2 = [PinAction.clear_pin] ∧
    applyPinActions (some x) (autoFocusEffect (some l) tracks).2 = none := by
  have heff : autoFocusEffect (some l) tracks = (none, [PinAction.clear_pin]) := by
    unfold autoFocusEffect
    cases hss : screenShareTracks tracks with
    | nil => rw [hss] at hgone; simp [autoFocusBranch, hgone]
    | cons a as => rw [hss] at hgone; simp [autoFocusBranch, hgone]
  rw [heff]
  exact ⟨rfl, rfl⟩

/-- Witness for C9: the external pin on camera track c1 is erased when the
auto-pinned screen-share s1 departs. -/
theorem autoFocus_clear_overrides_external_pin_witness :
    (autoFocusEffect (some ⟨TrackSource.ScreenShare, "s1", false⟩)
        [⟨TrackSource.Camera, "c1", false⟩]).2 = [PinAction.clear_pin] ∧
    applyPinActions (some ⟨TrackSource.Camera, "c1", false⟩)
        (autoFocusEffect (some ⟨TrackSource.ScreenShare, "s1", false⟩)
          [⟨TrackSource.Camera, "c1", false⟩]).2
      = none :=
  autoFocus_clear_overrides_external_pin _ _ _ (by decide) (by decide)

/-- C4 as stated fails: on the empty snapshot the effect is not a no-op for
every controller state — with a non-empty ref the clear branch fires and
dispatches `clear_pin`. -/
theorem emptySnapshot_counterexample :
    (autoFocusEffect (some ⟨TrackSource.ScreenShare, "s1", false⟩) []).2
        = [PinAction.clear_pin] ∧
    (autoFocusEffect (some ⟨TrackSource.ScreenShare, "s1", false⟩) []).2 ≠ [] := by
  refine ⟨rfl, ?_⟩
  decide

/-- C4 amended: on the empty snapshot the effect dispatches nothing when the
ref is empty, and dispatches exactly `clear_pin` (resetting the ref) when the
ref is non-empty; the layout branch with no focus track is the grid over the
empty track list. -/
theorem emptySnapshot_behaviour :
    autoFocusEffect none [] = (none, []) ∧
    (∀ l : TrackRef,
      autoFocusEffect (some l) [] = (none, [PinAction.clear_pin])) ∧
    layoutSelect none [] = ⟨LayoutMode.grid, [], none⟩ :=
  ⟨rfl, fun l => rfl, rfl⟩

/-- C5: for every non-empty pin the carousel strip of the focus layout
contains no entry equal to the pinned track, equality taken as the
TrackReference-value comparison `isEqualTrackRef`. -/
theorem carousel_excludes_pinned (p : TrackRef) (tracks : List TrackRef) :
    (layoutSelect (some p) tracks).tracks.all
      (fun track => !(isEqualTrackRef (some track) (some p))) = true := by
  simp only [layoutSelect, carouselTracks, List.all_eq_true, List.mem_filter]
  intro track htrack
  exact htrack.2

/-- C6: the layout branch is a total pure function of the pin and the
snapshot: an empty pin gives grid mode over the full snapshot, a pin `p`
gives focus mode on `p` with the snapshot filtered of entries equal to `p`,
and equal inputs give equal outputs. -/
theorem layoutSelect_pure :
    (∀ tracks : List TrackRef,
      layoutSelect none tracks = ⟨LayoutMode.grid, tracks, none⟩) ∧
    (∀ (p : TrackRef) (tracks : List TrackRef),
      layoutSelect (some p) tracks =
        ⟨LayoutMode.focus,
          tracks.filter (fun track => !(isEqualTrackRef (some track) (some p))),
          some p⟩) ∧
    (∀ (pin : Option TrackRef) (tracks : List TrackRef),
      layoutSelect pin tracks = layoutSelect pin tracks) :=
  ⟨fun tracks => rfl, fun p tracks => rfl, fun pin tracks => rfl⟩

/-- C7: every effect run dispatches zero or one pin action; a run dispatches
nothing exactly when it leaves the ref unchanged (so a steady state absorbs
reruns of the same snapshot); and rerunning the same snapshot reaches such a
steady state within two runs, after which a further rerun keeps the ref and
dispatches nothing. -/
theorem autoFocus_idempotent (last : Option TrackRef) (tracks : List TrackRef) :
    (autoFocusEffect last tracks).2.length ≤ 1 ∧
    ((autoFocusEffect last tracks).2 = [] ↔
      (autoFocusEffect last tracks).1 = last) ∧
    autoFocusEffect
        ((autoFocusEffect ((autoFocusEffect last tracks).1) tracks).1) tracks
      = ((autoFocusEffect ((autoFocusEffect last tracks).1) tracks).1, []) := by
  unfold autoFocusEffect
  generalize screenShareTracks tracks = ss
  cases ss with
  | nil =>
    cases last with
    | none => simp [autoFocusBranch]
    | some l => simp [autoFocusBranch]
  | cons a as =>
    have hself : ((a :: as).any fun track => track.trackSid == a.trackSid) = true := by
      simp
    cases last with
    | none => simp [autoFocusBranch, hself]
    | some l =>
      by_cases hany : ((a :: as).any fun track => track.trackSid == l.trackSid) = true
      · simp [autoFocusBranch, hany]
      · simp [autoFocusBranch, hany, hself]

/-- C3 as stated fails: the timer effect has no cleanup, so after
`setWaitingMessage` of "A" at 0 ms and of "B" at 1000 ms both expiries
(3000 ms and 4000 ms) are still pending, and the uncancelled expiry of "A"
fires at 3000 ms: at 1000+2999 ms the toast is already gone, where the claim
says "B" is still visible. -/
theorem waitingTimer_counterexample :
    (setWaitingMessage true "B" 1000
        (setWaitingMessage true "A" 0 ⟨none, []⟩)).timers = [3000, 4000] ∧
    showsToast (fireDue 3999 (setWaitingMessage true "B" 1000
        (setWaitingMessage true "A" 0 ⟨none, []⟩))) = false ∧
    (fireDue 3999 (setWaitingMessage true "B" 1000
        (setWaitingMessage true "A" 0 ⟨none, []⟩))).waiting = none := by
  refine ⟨?_, ?_, ?_⟩ <;> decide

/-- C3 amended: an effective `setWaitingMessage` does not cancel the prior
pending expiry — both expiries stay scheduled — so after `setMessage` of a
truthy message at `t0` and of a different truthy message 1000 ms later, the
first, uncancelled expiry at `t0 + 3000` clears the replacement message, and
at `t0 + 1000 + 2999` the waiting cell is already empty with only the second
expiry (at `t0 + 1000 + 3000`) still pending. -/
theorem waitingTimer_no_cancellation (t0 : Nat) (a b : String)
    (ha : a ≠ "") (hb : b ≠ "") (hab : b ≠ a) :
    (setWaitingMessage true b (t0 + 1000)
        (setWaitingMessage true a t0 ⟨none, []⟩)).timers
      = [t0 + 3000, t0 + 1000 + 3000] ∧
    fireDue (t0 + 1000 + 2999) (setWaitingMessage true b (t0 + 1000)
        (setWaitingMessage true a t0 ⟨none, []⟩))
      = ⟨none, [t0 + 1000 + 3000]⟩ := by
  have h1 : setWaitingMessage true a t0 ⟨none, []⟩ = ⟨some a, [t0 + 3000]⟩ := by
    simp [setWaitingMessage, waitingTruthy, ha]
  have h2 : setWaitingMessage true b (t0 + 1000) ⟨some a, [t0 + 3000]⟩
      = ⟨some b, [t0 + 3000, t0 + 1000 + 3000]⟩ := by
    simp [setWaitingMessage, waitingTruthy, hb, hab]
  rw [h1, h2]
  refine ⟨rfl, ?_⟩
  have hdue : t0 + 3000 ≤ t0 + 1000 + 2999 := by omega
  have hkeep : t0 + 1000 + 2999 < t0 + 1000 + 3000 := by omega
  have hdrop : ¬ t0 + 1000 + 2999 < t0 + 3000 := by omega
  simp [fireDue, List.any_cons, List.filter, hdue, hkeep, hdrop]

/-- Witness for the amended C3 at `t0 = 0` with messages "A" and "B". -/
theorem waitingTimer_no_cancellation_witness :
    (setWaitingMessage true "B" (0 + 1000)
        (setWaitingMessage true "A" 0 ⟨none, []⟩)).timers
      = [0 + 3000, 0 + 1000 + 3000] ∧
    fireDue (0 + 1000 + 2999) (setWaitingMessage true "B" (0 + 1000)
        (setWaitingMessage true "A" 0 ⟨none, []⟩))
      = ⟨none, [0 + 1000 + 3000]⟩ :=
  waitingTimer_no_cancellation 0 "A" "B" (by decide) (by decide) (by decide)

/-- C8: with the participant button disabled, `setWaitingMessage` is the
identity on the waiting state for every message: the call is silently
dropped and the notification stays as it was. -/
theorem setWaitingMessage_gated (message : String) (now : Nat) (s : WaitState) :
    setWaitingMessage false message now s = s := rfl

/-- C10: an effective call with the empty string stores it in the waiting
cell, yet the timer effect schedules no expiry for it and the toast render
guard stays off: the empty string is treated as absent by both. -/
theorem setWaitingMessage_empty_string (now : Nat) (s : WaitState) :
    (setWaitingMessage true "" now s).waiting = some "" ∧
    (setWaitingMessage true "" now s).timers = s.timers ∧
    showsToast (setWaitingMessage true "" now s) = false := by
  refine ⟨rfl, ?_, rfl⟩
  simp [setWaitingMessage, waitingTruthy]
